import Mathlib

/-! NeoPixel fire strip (`arduinoESP8266/fireEffectLED.cpp`)

A shallow embedding of the sketch: the brightness clamp `clamp`, the
initialisation routine `setup` and the frame routine `loop`, as functions on an
explicit program state that also logs the calls made to the LED driver, the
serial port, the Wi-Fi manager and the fire generator.
-/

namespace FireEffectLED

/-! ## Compile-time configuration -/

/-- The two board pins the sketch names. -/
inductive Pin where
  | D2
  | D7
  deriving DecidableEq, Repr

/-- Source: `#define LED_PIN D7`. -/
def LED_PIN : Pin := Pin.D7

/-- Source: `#define LED_BUILTIN D2`. -/
def LED_BUILTIN : Pin := Pin.D2

/-- Source: `#define NUM_LEDS 20`. -/
def NUM_LEDS : Nat := 20

/-! ## The brightness clamp -/

/-- Source: `int clamp(int num) { return (num>255) ? 255 : num; }`.
The comparison and both branches stay inside the range of `int`, so no
wrap-around can occur and the integers are taken unbounded. -/
def clamp (num : Int) : Int :=
  if num > 255 then 255 else num

/-! ## Frame buffer -/

/-- One pixel of the strip: three colour bytes. -/
structure CRGB where
  r : Fin 256
  g : Fin 256
  b : Fin 256
  deriving DecidableEq, Repr

/-- The unlit pixel, all three bytes zero. -/
def CRGB.Black : CRGB := ⟨0, 0, 0⟩

/-- Modelled from the spec: the declaration of the frame buffer `g_LEDs` is not
in `fireEffectLED.cpp`; the data model describes it as an ordered sequence of
N pixel-colour triples, one per physical LED, with N the `NUM_LEDS` that
`setup` registers with the driver. -/
abbrev Frame : Type := { l : List CRGB // l.length = NUM_LEDS }

/-- The frame buffer with every pixel zeroed. -/
def Frame.zero : Frame := ⟨List.replicate NUM_LEDS CRGB.Black, List.length_replicate _ _⟩

/-! ## The fire generator -/

/-- The constructor arguments of the fire generator, named as in the signature
quoted in `setup`:
`ClassicFireEffect(int size, int cooling, int sparking, int sparks,
int sparkHeight, bool breversed, bool bmirrored)`. -/
structure FireParams where
  size : Int
  cooling : Int
  sparking : Int
  sparks : Int
  sparkHeight : Int
  breversed : Bool
  bmirrored : Bool
  deriving DecidableEq, Repr

/-- Modelled from the spec: the class `ClassicFireEffect` of the header `fire.h`,
which is not among the sources. The spec gives its interface only: it is
constructed from the strip length, the cooling, sparking, spark-count and
spark-height constants and the reversed and mirrored flags, and it exposes one
operation, "compute next frame", which deterministically, given its internal
pseudo-random state, mutates the frame buffer in place and never fails.
`G` is the generator's internal state (heat cells and pseudo-random state). -/
structure ClassicFireEffect (G : Type) where
  /-- The constructor. -/
  construct : FireParams → G
  /-- The next-frame operation: new generator state and new frame buffer. -/
  DrawFire : G → Frame → G × Frame

/-! ## Program state and observable calls -/

/-- The calls the sketch makes, in the order it makes them. -/
inductive Effect where
  | serialBegin (baud : Nat)
  | serialPrintln (msg : String)
  | pinModeOutput (pin : Pin)
  | addLeds (pin : Pin) (count : Nat)
  | setBrightness (scale : Int)
  | setMaxPowerIndicatorLED (pin : Pin)
  | setMaxPowerInMilliWatts (milliwatts : Int)
  | wifiManagerConstruct
  | autoConnect (apName : String)
  | fireConstruct (p : FireParams)
  | fireDestroy
  | wifiManagerDestroy
  | clear
  | drawFire
  | showLeds (scale : Int)
  | delay (ms : Nat)
  deriving DecidableEq, Repr

/-- The state of the running sketch.

* `g_Brightness`, `g_PowerLimit`: the two global `int`s.
* `g_LEDs`: the frame buffer; `ledsAdded` records whether it has been
  registered with the driver by `FastLED.addLeds`, since the driver clears and
  shows registered buffers only.
* `fire`: the object that the name `fire` denotes inside `loop`. `loop`
  declares no `fire` of its own and the file declares none at file scope (the
  one in `setup` is local to the body of `setup`), so the name can only denote
  an object with static storage declared outside this file; its state is part
  of the program state.
* `locals`: the generator objects with automatic storage that are alive, by
  variable name, innermost first.
* `trace`: the calls made so far.
* `shown`: the frame buffers pushed to the strip so far. -/
structure State (G : Type) where
  g_Brightness : Int
  g_PowerLimit : Int
  g_LEDs : Frame
  ledsAdded : Bool
  fire : G
  locals : List (String × G)
  trace : List Effect
  shown : List Frame

/-- The state at power-up: `int g_Brightness = 255;`, `int g_PowerLimit = 3000;`,
nothing registered, nothing logged. The generator named in `loop` and the
content of the frame buffer are whatever their own declarations make them. -/
def initState {G : Type} (fire : G) (leds : Frame) : State G :=
  { g_Brightness := 255
    g_PowerLimit := 3000
    g_LEDs := leds
    ledsAdded := false
    fire := fire
    locals := []
    trace := []
    shown := [] }

/-- Append one call to the log. -/
def State.emit {G : Type} (s : State G) (e : Effect) : State G :=
  { s with trace := s.trace ++ [e] }

/-! ## Driver, runtime and library calls -/

/-- Library call `Serial.begin(baud)`. -/
def Serial.begin {G : Type} (baud : Nat) (s : State G) : State G :=
  s.emit (Effect.serialBegin baud)

/-- Library call `Serial.println(msg)`. -/
def Serial.println {G : Type} (msg : String) (s : State G) : State G :=
  s.emit (Effect.serialPrintln msg)

/-- Runtime call `pinMode(pin, OUTPUT)`. -/
def pinMode {G : Type} (pin : Pin) (s : State G) : State G :=
  s.emit (Effect.pinModeOutput pin)

/-- Driver call `FastLED.addLeds<WS2812B, pin, GRB>(g_LEDs, count)`: from here
on the driver knows the frame buffer. -/
def FastLED.addLeds {G : Type} (pin : Pin) (count : Nat) (s : State G) : State G :=
  { s with ledsAdded := true, trace := s.trace ++ [Effect.addLeds pin count] }

/-- Driver call `FastLED.setBrightness(scale)`. -/
def FastLED.setBrightness {G : Type} (scale : Int) (s : State G) : State G :=
  s.emit (Effect.setBrightness scale)

/-- Driver call `set_max_power_indicator_LED(pin)`. -/
def set_max_power_indicator_LED {G : Type} (pin : Pin) (s : State G) : State G :=
  s.emit (Effect.setMaxPowerIndicatorLED pin)

/-- Driver call `FastLED.setMaxPowerInMilliWatts(milliwatts)`. -/
def FastLED.setMaxPowerInMilliWatts {G : Type} (milliwatts : Int) (s : State G) : State G :=
  s.emit (Effect.setMaxPowerInMilliWatts milliwatts)

/-- Driver call `FastLED.clear()`: zero every registered frame buffer. -/
def FastLED.clear {G : Type} (s : State G) : State G :=
  { s with
    g_LEDs := if s.ledsAdded then Frame.zero else s.g_LEDs
    trace := s.trace ++ [Effect.clear] }

/-- Driver call `FastLED.show(scale)`: push every registered frame buffer to
the strip at the given brightness scale. The buffer itself is not changed. -/
def FastLED.showLeds {G : Type} (scale : Int) (s : State G) : State G :=
  { s with
    shown := if s.ledsAdded then s.shown ++ [s.g_LEDs] else s.shown
    trace := s.trace ++ [Effect.showLeds scale] }

/-- Runtime call `delay(ms)`. -/
def delay {G : Type} (ms : Nat) (s : State G) : State G :=
  s.emit (Effect.delay ms)

/-- Declaration `WiFiManager wifiManager;` in a function body. -/
def WiFiManager.declare {G : Type} (s : State G) : State G :=
  s.emit Effect.wifiManagerConstruct

/-- Library call `wifiManager.autoConnect(apName)`. The call blocks inside the
provisioning library until that library returns; what happens meanwhile belongs
to the library, and the state here is the one at its return. -/
def WiFiManager.autoConnect {G : Type} (apName : String) (s : State G) : State G :=
  s.emit (Effect.autoConnect apName)

/-- Declaration `ClassicFireEffect name(p);` in a function body: the object is
constructed with automatic storage in the enclosing block. -/
def ClassicFireEffect.declare {G : Type} (E : ClassicFireEffect G) (name : String)
    (p : FireParams) (s : State G) : State G :=
  { s with
    locals := (name, E.construct p) :: s.locals
    trace := s.trace ++ [Effect.fireConstruct p] }

/-- The member call `fire.DrawFire()` on the object that `fire` denotes in
`loop`: it advances that generator and rewrites the frame buffer. -/
def fire_DrawFire {G : Type} (E : ClassicFireEffect G) (s : State G) : State G :=
  { s with
    fire := (E.DrawFire s.fire s.g_LEDs).1
    g_LEDs := (E.DrawFire s.fire s.g_LEDs).2
    trace := s.trace ++ [Effect.drawFire] }

/-! ## The sketch -/

/-- The arguments of `ClassicFireEffect fire(NUM_LEDS, 30, 100, 3, 2, true, true);`. -/
def setupFireParams : FireParams :=
  { size := NUM_LEDS, cooling := 30, sparking := 100, sparks := 3, sparkHeight := 2,
    breversed := true, bmirrored := true }

/-- The statements of `setup()` up to its closing brace (`DEBUG` is defined, so
the serial lines are compiled in). -/
def setupBody {G : Type} (E : ClassicFireEffect G) (s : State G) : State G :=
  let s := Serial.begin 500000 s
  let s := Serial.println "Serial is working" s
  let s := pinMode LED_BUILTIN s
  let s := pinMode LED_PIN s
  let s := FastLED.addLeds LED_PIN NUM_LEDS s
  let s := FastLED.setBrightness s.g_Brightness s
  let s := set_max_power_indicator_LED LED_BUILTIN s
  let s := FastLED.setMaxPowerInMilliWatts s.g_PowerLimit s
  let s := WiFiManager.declare s
  let s := WiFiManager.autoConnect "BackFire" s
  E.declare "fire" setupFireParams s

/-- The closing brace of `setup()`: the two objects declared in its body,
`wifiManager` and `fire`, have automatic storage and are destroyed in reverse
order of declaration; `entry` is the list of automatic objects alive when
`setup` was entered. -/
def setupReturn {G : Type} (entry : List (String × G)) (s : State G) : State G :=
  { s with
    locals := entry
    trace := s.trace ++ [Effect.fireDestroy, Effect.wifiManagerDestroy] }

/-- Source: `void setup()`. -/
def setup {G : Type} (E : ClassicFireEffect G) (s : State G) : State G :=
  setupReturn s.locals (setupBody E s)

/-- Source: `void loop()`:
`FastLED.clear(); fire.DrawFire(); FastLED.show(g_Brightness); delay(33);`. -/
def loop {G : Type} (E : ClassicFireEffect G) (s : State G) : State G :=
  let s := FastLED.clear s
  let s := fire_DrawFire E s
  let s := FastLED.showLeds s.g_Brightness s
  delay 33 s

/-- The runtime calls `loop()` again and again: `k` consecutive iterations. -/
def loops {G : Type} (E : ClassicFireEffect G) : Nat → State G → State G
  | 0, s => s
  | k + 1, s => loops E k (loop E s)

/-- The runtime calls `setup()` once and then `loop()` forever: the state after
`setup` and `k` iterations of `loop`. -/
def run {G : Type} (E : ClassicFireEffect G) (k : Nat) (s : State G) : State G :=
  loops E k (setup E s)

/-! ## Reading the logs -/

/-- The four calls of one iteration of `loop` at brightness `b`:
clearing, computing, presenting, sleeping. -/
def frameSteps (b : Int) : List Effect :=
  [Effect.clear, Effect.drawFire, Effect.showLeds b, Effect.delay 33]

/-- The brightness arguments of the `FastLED.show` calls in a log. -/
def showScales : List Effect → List Int
  | [] => []
  | Effect.showLeds b :: es => b :: showScales es
  | _ :: es => showScales es

/-- The brightness arguments of the `FastLED.setBrightness` calls in a log. -/
def brightnessSettings : List Effect → List Int
  | [] => []
  | Effect.setBrightness b :: es => b :: brightnessSettings es
  | _ :: es => brightnessSettings es

/-- The arguments of the `FastLED.setMaxPowerInMilliWatts` calls in a log. -/
def powerLimits : List Effect → List Int
  | [] => []
  | Effect.setMaxPowerInMilliWatts p :: es => p :: powerLimits es
  | _ :: es => powerLimits es

/-- The log of `k` iterations at brightness `b`: `k` repetitions of the four
steps. -/
def frameCycles (b : Int) (k : Nat) : List Effect :=
  (List.replicate k (frameSteps b)).flatten

/-- The frame buffers pushed to the strip by `setup` and `n` iterations of
`loop` started in state `s`: what the run adds to the log of shown frames. -/
def framesProduced {G : Type} (E : ClassicFireEffect G) (n : Nat) (s : State G) : List Frame :=
  (run E n s).shown.drop s.shown.length

/-- The frames a generator in state `g` produces in `n` consecutive calls, each
starting from a zeroed frame buffer. -/
def fireFrames {G : Type} (E : ClassicFireEffect G) : Nat → G → List Frame
  | 0, _ => []
  | n + 1, g => (E.DrawFire g Frame.zero).2 :: fireFrames E n (E.DrawFire g Frame.zero).1

/-- The state of a generator after `n` consecutive calls, each starting from a
zeroed frame buffer. -/
def fireAfter {G : Type} (E : ClassicFireEffect G) : Nat → G → G
  | 0, g => g
  | n + 1, g => fireAfter E n (E.DrawFire g Frame.zero).1

/-! ## A sample generator

A small concrete generator, used only to instantiate the statements below at
explicit inputs. Its state is one number, advanced by a linear congruence; each
frame is a uniform colour derived from it. -/

/-- A uniformly coloured frame. -/
def Frame.uniform (c : CRGB) : Frame := ⟨List.replicate NUM_LEDS c, List.length_replicate _ _⟩

/-- The sample generator. -/
def sampleEffect : ClassicFireEffect Nat :=
  { construct := fun _ => 0
    DrawFire := fun g _ =>
      ((g * 75 + 74) % 65537, Frame.uniform ⟨Fin.ofNat g, Fin.ofNat (g / 2), 0⟩) }

/-- The power-up state used in the concrete instances: generator state 7. -/
def sampleInit : State Nat := initState 7 Frame.zero

/-- A second power-up state with the same generator state and another frame
buffer content. -/
def sampleInitLit : State Nat := initState 7 (Frame.uniform ⟨255, 255, 255⟩)

/-! ## Properties of `clamp` -/

/-- C1: for every integer `n` with `n ≤ 255`, negative values and the boundary
255 included, `clamp n` is `n` itself; there is no lower bound. -/
theorem clamp_eq_self_of_le (n : Int) (h : n ≤ 255) : clamp n = n := by
  unfold clamp
  rw [if_neg (not_lt.mpr h)]

/-- Instance of C1 at `n = -10` and at the boundary `n = 255`. -/
theorem clamp_eq_self_of_le_witness :
    ((-10 : Int) ≤ 255 ∧ clamp (-10) = -10) ∧ ((255 : Int) ≤ 255 ∧ clamp 255 = 255) :=
  ⟨⟨by decide, clamp_eq_self_of_le (-10) (by decide)⟩,
   ⟨by decide, clamp_eq_self_of_le 255 (by decide)⟩⟩

/-- C2: for every integer `n` with `n > 255`, `clamp n` is exactly 255. -/
theorem clamp_eq_255_of_gt (n : Int) (h : n > 255) : clamp n = 255 := by
  unfold clamp
  rw [if_pos h]

/-- Instance of C2 at `n = 300`. -/
theorem clamp_eq_255_of_gt_witness : (300 : Int) > 255 ∧ clamp 300 = 255 :=
  ⟨by decide, clamp_eq_255_of_gt 300 (by decide)⟩

/-- C3: `clamp` is idempotent, `clamp (clamp n) = clamp n` for every integer `n`. -/
theorem clamp_idempotent (n : Int) : clamp (clamp n) = clamp n := by
  unfold clamp
  split_ifs <;> rfl

/-- C4: for every integer `n`, `clamp n` is at most 255, the maximum brightness. -/
theorem clamp_le_255 (n : Int) : clamp n ≤ 255 := by
  unfold clamp
  split_ifs <;> omega

/-! ## One iteration of `loop` -/

section Lemmas

variable {G : Type} (E : ClassicFireEffect G)

theorem loop_trace (s : State G) :
    (loop E s).trace = s.trace ++ frameSteps s.g_Brightness := by
  simp [loop, FastLED.clear, fire_DrawFire, FastLED.showLeds, delay, State.emit, frameSteps]

theorem loop_g_Brightness (s : State G) : (loop E s).g_Brightness = s.g_Brightness := by
  simp [loop, FastLED.clear, fire_DrawFire, FastLED.showLeds, delay, State.emit]

theorem loop_g_PowerLimit (s : State G) : (loop E s).g_PowerLimit = s.g_PowerLimit := by
  simp [loop, FastLED.clear, fire_DrawFire, FastLED.showLeds, delay, State.emit]

theorem loop_ledsAdded (s : State G) : (loop E s).ledsAdded = s.ledsAdded := by
  simp [loop, FastLED.clear, fire_DrawFire, FastLED.showLeds, delay, State.emit]

theorem loop_locals (s : State G) : (loop E s).locals = s.locals := by
  simp [loop, FastLED.clear, fire_DrawFire, FastLED.showLeds, delay, State.emit]

theorem loop_fire (s : State G) (h : s.ledsAdded = true) :
    (loop E s).fire = (E.DrawFire s.fire Frame.zero).1 := by
  simp [loop, FastLED.clear, fire_DrawFire, FastLED.showLeds, delay, State.emit, h]

theorem loop_g_LEDs (s : State G) (h : s.ledsAdded = true) :
    (loop E s).g_LEDs = (E.DrawFire s.fire Frame.zero).2 := by
  simp [loop, FastLED.clear, fire_DrawFire, FastLED.showLeds, delay, State.emit, h]

theorem loop_shown (s : State G) (h : s.ledsAdded = true) :
    (loop E s).shown = s.shown ++ [(E.DrawFire s.fire Frame.zero).2] := by
  simp [loop, FastLED.clear, fire_DrawFire, FastLED.showLeds, delay, State.emit, h]

/-! ## Many iterations -/

theorem frameCycles_succ (b : Int) (k : Nat) :
    frameCycles b (k + 1) = frameSteps b ++ frameCycles b k := by
  simp [frameCycles, List.replicate_succ]

theorem loops_succ_last (k : Nat) (s : State G) :
    loops E (k + 1) s = loop E (loops E k s) := by
  induction k generalizing s with
  | zero => rfl
  | succ k ih =>
    show loops E (k + 1) (loop E s) = loop E (loops E k (loop E s))
    exact ih (loop E s)

theorem loops_g_Brightness (k : Nat) (s : State G) :
    (loops E k s).g_Brightness = s.g_Brightness := by
  induction k generalizing s with
  | zero => rfl
  | succ k ih =>
    show (loops E k (loop E s)).g_Brightness = s.g_Brightness
    rw [ih, loop_g_Brightness]

theorem loops_g_PowerLimit (k : Nat) (s : State G) :
    (loops E k s).g_PowerLimit = s.g_PowerLimit := by
  induction k generalizing s with
  | zero => rfl
  | succ k ih =>
    show (loops E k (loop E s)).g_PowerLimit = s.g_PowerLimit
    rw [ih, loop_g_PowerLimit]

theorem loops_ledsAdded (k : Nat) (s : State G) :
    (loops E k s).ledsAdded = s.ledsAdded := by
  induction k generalizing s with
  | zero => rfl
  | succ k ih =>
    show (loops E k (loop E s)).ledsAdded = s.ledsAdded
    rw [ih, loop_ledsAdded]

theorem loops_locals (k : Nat) (s : State G) :
    (loops E k s).locals = s.locals := by
  induction k generalizing s with
  | zero => rfl
  | succ k ih =>
    show (loops E k (loop E s)).locals = s.locals
    rw [ih, loop_locals]

theorem loops_trace (k : Nat) (s : State G) :
    (loops E k s).trace = s.trace ++ frameCycles s.g_Brightness k := by
  induction k generalizing s with
  | zero => simp [loops, frameCycles]
  | succ k ih =>
    show (loops E k (loop E s)).trace = s.trace ++ frameCycles s.g_Brightness (k + 1)
    rw [ih, loop_trace, loop_g_Brightness, List.append_assoc, frameCycles_succ]

theorem loops_fire (k : Nat) (s : State G) (h : s.ledsAdded = true) :
    (loops E k s).fire = fireAfter E k s.fire := by
  induction k generalizing s with
  | zero => rfl
  | succ k ih =>
    show (loops E k (loop E s)).fire = fireAfter E (k + 1) s.fire
    rw [ih (loop E s) (by rw [loop_ledsAdded]; exact h), loop_fire E s h]
    rfl

theorem loops_shown (k : Nat) (s : State G) (h : s.ledsAdded = true) :
    (loops E k s).shown = s.shown ++ fireFrames E k s.fire := by
  induction k generalizing s with
  | zero => simp [loops, fireFrames]
  | succ k ih =>
    show (loops E k (loop E s)).shown = s.shown ++ fireFrames E (k + 1) s.fire
    rw [ih (loop E s) (by rw [loop_ledsAdded]; exact h), loop_shown E s h, loop_fire E s h,
      List.append_assoc]
    rfl

theorem fireFrames_length (k : Nat) (g : G) : (fireFrames E k g).length = k := by
  induction k generalizing g with
  | zero => rfl
  | succ k ih => simp [fireFrames, ih]

/-! ## `setup` -/

theorem setup_g_Brightness (s : State G) : (setup E s).g_Brightness = s.g_Brightness := by
  simp [setup, setupReturn, setupBody, ClassicFireEffect.declare, WiFiManager.autoConnect,
    WiFiManager.declare, FastLED.setMaxPowerInMilliWatts, set_max_power_indicator_LED,
    FastLED.setBrightness, FastLED.addLeds, pinMode, Serial.println, Serial.begin, State.emit]

theorem setup_g_PowerLimit (s : State G) : (setup E s).g_PowerLimit = s.g_PowerLimit := by
  simp [setup, setupReturn, setupBody, ClassicFireEffect.declare, WiFiManager.autoConnect,
    WiFiManager.declare, FastLED.setMaxPowerInMilliWatts, set_max_power_indicator_LED,
    FastLED.setBrightness, FastLED.addLeds, pinMode, Serial.println, Serial.begin, State.emit]

theorem setup_ledsAdded (s : State G) : (setup E s).ledsAdded = true := by
  simp [setup, setupReturn, setupBody, ClassicFireEffect.declare, WiFiManager.autoConnect,
    WiFiManager.declare, FastLED.setMaxPowerInMilliWatts, set_max_power_indicator_LED,
    FastLED.setBrightness, FastLED.addLeds, pinMode, Serial.println, Serial.begin, State.emit]

theorem setup_fire (s : State G) : (setup E s).fire = s.fire := by
  simp [setup, setupReturn, setupBody, ClassicFireEffect.declare, WiFiManager.autoConnect,
    WiFiManager.declare, FastLED.setMaxPowerInMilliWatts, set_max_power_indicator_LED,
    FastLED.setBrightness, FastLED.addLeds, pinMode, Serial.println, Serial.begin, State.emit]

theorem setup_shown (s : State G) : (setup E s).shown = s.shown := by
  simp [setup, setupReturn, setupBody, ClassicFireEffect.declare, WiFiManager.autoConnect,
    WiFiManager.declare, FastLED.setMaxPowerInMilliWatts, set_max_power_indicator_LED,
    FastLED.setBrightness, FastLED.addLeds, pinMode, Serial.println, Serial.begin, State.emit]

theorem setup_locals (s : State G) : (setup E s).locals = s.locals := by
  simp [setup, setupReturn, setupBody, ClassicFireEffect.declare, WiFiManager.autoConnect,
    WiFiManager.declare, FastLED.setMaxPowerInMilliWatts, set_max_power_indicator_LED,
    FastLED.setBrightness, FastLED.addLeds, pinMode, Serial.println, Serial.begin, State.emit]

theorem setupBody_locals (s : State G) :
    (setupBody E s).locals = ("fire", E.construct setupFireParams) :: s.locals := by
  simp [setupBody, ClassicFireEffect.declare, WiFiManager.autoConnect,
    WiFiManager.declare, FastLED.setMaxPowerInMilliWatts, set_max_power_indicator_LED,
    FastLED.setBrightness, FastLED.addLeds, pinMode, Serial.println, Serial.begin, State.emit]

theorem setup_trace (s : State G) :
    (setup E s).trace = s.trace ++
      [Effect.serialBegin 500000, Effect.serialPrintln "Serial is working",
       Effect.pinModeOutput LED_BUILTIN, Effect.pinModeOutput LED_PIN,
       Effect.addLeds LED_PIN NUM_LEDS, Effect.setBrightness s.g_Brightness,
       Effect.setMaxPowerIndicatorLED LED_BUILTIN,
       Effect.setMaxPowerInMilliWatts s.g_PowerLimit,
       Effect.wifiManagerConstruct, Effect.autoConnect "BackFire",
       Effect.fireConstruct setupFireParams, Effect.fireDestroy,
       Effect.wifiManagerDestroy] := by
  simp [setup, setupReturn, setupBody, ClassicFireEffect.declare, WiFiManager.autoConnect,
    WiFiManager.declare, FastLED.setMaxPowerInMilliWatts, set_max_power_indicator_LED,
    FastLED.setBrightness, FastLED.addLeds, pinMode, Serial.println, Serial.begin, State.emit]

theorem showScales_append (xs ys : List Effect) :
    showScales (xs ++ ys) = showScales xs ++ showScales ys := by
  induction xs with
  | nil => rfl
  | cons x xs ih => cases x <;> simp [showScales, ih]

theorem showScales_frameCycles (b : Int) (k : Nat) :
    showScales (frameCycles b k) = List.replicate k b := by
  induction k with
  | zero => rfl
  | succ k ih =>
    rw [frameCycles_succ, showScales_append, ih]
    simp [frameSteps, showScales, List.replicate_succ]

theorem run_shown (k : Nat) (s : State G) :
    (run E k s).shown = s.shown ++ fireFrames E k s.fire := by
  unfold run
  rw [loops_shown E k (setup E s) (setup_ledsAdded E s), setup_shown, setup_fire]

theorem framesProduced_eq (k : Nat) (s : State G) :
    framesProduced E k s = fireFrames E k s.fire := by
  unfold framesProduced
  rw [run_shown]
  simp

theorem brightnessSettings_setup (s : State G) (h : s.trace = []) :
    brightnessSettings (setup E s).trace = [s.g_Brightness] := by
  rw [setup_trace, h]
  rfl

theorem powerLimits_setup (s : State G) (h : s.trace = []) :
    powerLimits (setup E s).trace = [s.g_PowerLimit] := by
  rw [setup_trace, h]
  rfl

theorem showScales_run (k : Nat) (s : State G) (h : s.trace = []) :
    showScales (run E k s).trace = List.replicate k s.g_Brightness := by
  unfold run
  rw [loops_trace, showScales_append, showScales_frameCycles, setup_trace, h, setup_g_Brightness]
  rfl

end Lemmas

/-! ## The frame loop -/

/-- C5: every iteration of `loop` makes exactly the four calls clear, DrawFire,
show at `g_Brightness`, delay 33, in this order, so the log of `k` iterations is
`k` repetitions of these four steps and nothing else; `loop` is total, so
there is always a next iteration. Once `setup` has run, the clear step zeroes
the frame buffer: the generator draws on a zeroed buffer and the buffer it
leaves is the one shown. -/
theorem loop_steps_cycle {G : Type} (E : ClassicFireEffect G) (s : State G) (k : Nat) :
    (loop E s).trace = s.trace ++
        [Effect.clear, Effect.drawFire, Effect.showLeds s.g_Brightness, Effect.delay 33]
    ∧ (loops E k s).trace = s.trace ++
        (List.replicate k
          [Effect.clear, Effect.drawFire, Effect.showLeds s.g_Brightness, Effect.delay 33]).flatten
    ∧ loops E (k + 1) s = loop E (loops E k s)
    ∧ (FastLED.clear (run E k s)).g_LEDs = Frame.zero
    ∧ (run E (k + 1) s).g_LEDs = (E.DrawFire (run E k s).fire Frame.zero).2
    ∧ (run E (k + 1) s).shown = (run E k s).shown ++ [(run E (k + 1) s).g_LEDs] := by
  have hadd : (run E k s).ledsAdded = true := by
    unfold run
    rw [loops_ledsAdded, setup_ledsAdded]
  have hsucc : run E (k + 1) s = loop E (run E k s) := loops_succ_last E k (setup E s)
  refine ⟨loop_trace E s, loops_trace E k s, loops_succ_last E k s, ?_, ?_, ?_⟩
  · simp [FastLED.clear, hadd]
  · rw [hsucc, loop_g_LEDs E _ hadd]
  · rw [hsucc, loop_shown E _ hadd, loop_g_LEDs E _ hadd]

/-- C6: the frame loop is deterministic in the generator state: two runs of
`setup` followed by `N` iterations of `loop` whose generators start in the
same state (pseudo-random seed included) push the same sequence of `N` frame
buffers to the strip, whatever else differs between the two starting states. -/
theorem frames_deterministic {G : Type} (E : ClassicFireEffect G) (s₁ s₂ : State G) (N : Nat)
    (hseed : s₁.fire = s₂.fire) :
    framesProduced E N s₁ = framesProduced E N s₂
    ∧ (framesProduced E N s₁).length = N := by
  rw [framesProduced_eq, framesProduced_eq, hseed]
  exact ⟨rfl, fireFrames_length E N s₂.fire⟩

/-- Instance of C6: the sample generator started twice in state 7, once on a
zeroed and once on a fully lit frame buffer, three iterations each. -/
theorem frames_deterministic_witness :
    sampleInit.fire = sampleInitLit.fire
    ∧ sampleInit.g_LEDs ≠ sampleInitLit.g_LEDs
    ∧ framesProduced sampleEffect 3 sampleInit = framesProduced sampleEffect 3 sampleInitLit
    ∧ (framesProduced sampleEffect 3 sampleInit).length = 3 :=
  ⟨rfl, by decide,
    (frames_deterministic sampleEffect sampleInit sampleInitLit 3 rfl).1,
    (frames_deterministic sampleEffect sampleInit sampleInitLit 3 rfl).2⟩

/-! ## Lifetime of the generator -/

/-- C7, what the code does: `setup` constructs a generator with the arguments
(20, 30, 100, 3, 2, true, true) as an object local to its body; that object is
destroyed when `setup` returns, so no generator made by `setup` is alive
afterwards, and `setup` leaves the generator that `loop` names untouched. The
generator that `loop` advances is that other object, in the state it had
before `setup`, not the one `setup` constructed. -/
theorem setup_generator_is_local {G : Type} (E : ClassicFireEffect G) (s : State G) :
    (setupBody E s).locals = ("fire", E.construct setupFireParams) :: s.locals
    ∧ setupFireParams = ⟨20, 30, 100, 3, 2, true, true⟩
    ∧ (setup E s).locals = s.locals
    ∧ (setup E s).trace.drop (s.trace.length + 10) =
        [Effect.fireConstruct setupFireParams, Effect.fireDestroy, Effect.wifiManagerDestroy]
    ∧ (setup E s).fire = s.fire
    ∧ (run E 1 s).fire = (E.DrawFire s.fire Frame.zero).1 := by
  refine ⟨setupBody_locals E s, rfl, setup_locals E s, ?_, setup_fire E s, ?_⟩
  · rw [setup_trace, List.drop_append]
    rfl
  · show (loop E (setup E s)).fire = _
    rw [loop_fire E _ (setup_ledsAdded E s), setup_fire]

/-- The sample generator at power-up: the generator `setup` constructs starts in
state 0 and is gone when `setup` returns, while the first iteration of `loop`
advances the other generator from its state 7 to 599 and shows the frame
drawn from 7. -/
theorem sample_setup_generator_unused :
    (setupBody sampleEffect sampleInit).locals = [("fire", 0)]
    ∧ (setup sampleEffect sampleInit).locals = []
    ∧ (setup sampleEffect sampleInit).fire = 7
    ∧ (run sampleEffect 1 sampleInit).fire = 599
    ∧ (sampleEffect.DrawFire (sampleEffect.construct setupFireParams) Frame.zero).1 = 74
    ∧ (run sampleEffect 1 sampleInit).shown = [Frame.uniform ⟨7, 3, 0⟩] := by
  refine ⟨?_, ?_, ?_, ?_, ?_, ?_⟩ <;> decide

/-! ## Brightness and power configuration -/

/-- C8: from power-up, `setup` gives `FastLED.setBrightness` the value of
`g_Brightness`, every one of the `k` iterations of `loop` passes exactly one
brightness to `FastLED.show`, that same value, and the value lies in the range
0..255. -/
theorem show_brightness_is_configured {G : Type} (E : ClassicFireEffect G) (fire : G)
    (leds : Frame) (k : Nat) :
    brightnessSettings (setup E (initState fire leds)).trace = [(initState fire leds).g_Brightness]
    ∧ showScales (run E k (initState fire leds)).trace =
        List.replicate k (initState fire leds).g_Brightness
    ∧ 0 ≤ (initState fire leds).g_Brightness
    ∧ (initState fire leds).g_Brightness ≤ 255 := by
  refine ⟨brightnessSettings_setup E _ rfl, showScales_run E k _ rfl, ?_, ?_⟩ <;>
    simp [initState]

/-- C9: from every program state, `setup` and any number of iterations of
`loop`, alone or one after the other, leave `g_Brightness` and `g_PowerLimit`
at the values they had. -/
theorem config_not_mutated {G : Type} (E : ClassicFireEffect G) (s : State G) (k : Nat) :
    ((setup E s).g_Brightness = s.g_Brightness ∧ (setup E s).g_PowerLimit = s.g_PowerLimit)
    ∧ ((loops E k s).g_Brightness = s.g_Brightness ∧ (loops E k s).g_PowerLimit = s.g_PowerLimit)
    ∧ ((run E k s).g_Brightness = s.g_Brightness ∧ (run E k s).g_PowerLimit = s.g_PowerLimit) := by
  refine ⟨⟨setup_g_Brightness E s, setup_g_PowerLimit E s⟩,
    ⟨loops_g_Brightness E k s, loops_g_PowerLimit E k s⟩, ?_, ?_⟩
  · unfold run
    rw [loops_g_Brightness, setup_g_Brightness]
  · unfold run
    rw [loops_g_PowerLimit, setup_g_PowerLimit]

/-- C10, what the code does: from power-up, the one power limit that `setup`
hands to `FastLED.setMaxPowerInMilliWatts` is the initial value of
`g_PowerLimit`, which is 3000 and not the 900 of the comment on its
declaration. -/
theorem setup_power_limit_is_3000 {G : Type} (E : ClassicFireEffect G) (fire : G)
    (leds : Frame) :
    powerLimits (setup E (initState fire leds)).trace = [3000]
    ∧ powerLimits (setup E (initState fire leds)).trace ≠ [900] := by
  rw [powerLimits_setup E _ rfl]
  simp [initState]

end FireEffectLED
